import Mathlib

/-!
Shallow embedding of the provider resolution and adaptation layer of
qwen-code: the ordered-predicate provider resolver (`determineProvider`),
the Ollama and vLLM provider adapters (detection predicates and
`buildRequest` transforms), and the local-server availability probe
(`checkLocalServerAvailability`, `autoDetectLocalServer`).

JavaScript string primitives used by the source (`String.prototype.includes`,
`startsWith`, `toLowerCase`) are embedded as functions over `String.data`
(`List Char`); `toLowerCase` is embedded with `Char.toLower`, which agrees
with JavaScript on the ASCII strings this layer matches against.
The network is embedded as an explicit oracle `String → Nat → FetchOutcome`
giving, for each URL and per-attempt timeout, the outcome of one `fetch`
call: a successful response with parsed JSON payload, a non-ok response, or
a thrown error (network failure / abort timeout) carrying its message.
-/

namespace QwenCode

/-- Embedding of JavaScript `haystack.includes(needle)` on char lists:
`true` iff `needle` occurs as a contiguous infix of `haystack`. -/
def listContains : List Char → List Char → Bool
  | [], needle => needle.isEmpty
  | h :: t, needle => needle.isPrefixOf (h :: t) || listContains t needle

/-- JavaScript `s.includes(sub)`. -/
def jsIncludes (s sub : String) : Bool :=
  listContains s.data sub.data

/-- JavaScript `s.startsWith(p)`. -/
def jsStartsWith (s p : String) : Bool :=
  p.data.isPrefixOf s.data

/-- JavaScript `s.toLowerCase()` (ASCII fragment, charwise `Char.toLower`). -/
def jsToLower (s : String) : String :=
  ⟨s.data.map Char.toLower⟩

/-- JavaScript `s.endsWith(suffix)`, via reversed char lists. -/
def jsEndsWith (s suffix : String) : Bool :=
  suffix.data.reverse.isPrefixOf s.data.reverse

/-- Drop the last `n` characters of a string (the effect of removing a
matched suffix). -/
def strDropRight (s : String) (n : Nat) : String :=
  ⟨(s.data.reverse.drop n).reverse⟩

/-- The slice of `ContentGeneratorConfig` consumed by this layer
(spec §3 `ConnectionConfig`): every field optional. -/
structure ContentGeneratorConfig where
  baseUrl : Option String
  apiKey : Option String
  model : Option String
  timeout : Option Nat
  maxRetries : Option Nat
  deriving DecidableEq, Repr

/-- The empty configuration: no field set. -/
def emptyConfig : ContentGeneratorConfig :=
  { baseUrl := none, apiKey := none, model := none, timeout := none,
    maxRetries := none }

/-- The closed set of provider variants the resolver can return. -/
inductive ProviderVariant
  | Ollama
  | Vllm
  | DashScope
  | DeepSeek
  | OpenRouter
  | ModelScope
  | Default
  deriving DecidableEq, Repr

/-- `OllamaProvider.isOllamaProvider` (ollama.ts, lines 38-58): the base URL
is lowercased, then matched for the Ollama loopback host:port; otherwise the
model-name heuristic fires when the (un-lowercased) model contains a colon
and starts with `qwen`. -/
def isOllamaProvider (config : ContentGeneratorConfig) : Bool :=
  let baseUrl := jsToLower (config.baseUrl.getD "")
  if jsIncludes baseUrl "localhost:11434" || jsIncludes baseUrl "127.0.0.1:11434" then
    true
  else
    let model := config.model.getD ""
    if jsIncludes model ":" && jsStartsWith model "qwen" then
      true
    else
      false

/-- `VllmProvider.isVllmProvider` (part_000, lines 37-51): the base URL is
lowercased and matched for the vLLM loopback host:port. -/
def isVllmProvider (config : ContentGeneratorConfig) : Bool :=
  let baseUrl := jsToLower (config.baseUrl.getD "")
  if jsIncludes baseUrl "localhost:8000" || jsIncludes baseUrl "127.0.0.1:8000" then
    true
  else
    false

/-- Modelled from the spec: `DashScopeOpenAICompatibleProvider.isDashScopeProvider`
is not under src/ (only its call site in `determineProvider` is).  The spec
(§4.1) only names it as the third pure predicate of the chain; it is modelled
as a vendor-substring check on the lowercased base URL, which is false on the
empty config as §8 requires. -/
def isDashScopeProvider (config : ContentGeneratorConfig) : Bool :=
  jsIncludes (jsToLower (config.baseUrl.getD "")) "dashscope"

/-- Modelled from the spec: `DeepSeekOpenAICompatibleProvider.isDeepSeekProvider`
is not under src/; modelled as a vendor-substring check on the lowercased base
URL, false on the empty config as §8 requires. -/
def isDeepSeekProvider (config : ContentGeneratorConfig) : Bool :=
  jsIncludes (jsToLower (config.baseUrl.getD "")) "deepseek"

/-- Modelled from the spec: `OpenRouterOpenAICompatibleProvider.isOpenRouterProvider`
is not under src/; modelled as a vendor-substring check on the lowercased base
URL, false on the empty config as §8 requires. -/
def isOpenRouterProvider (config : ContentGeneratorConfig) : Bool :=
  jsIncludes (jsToLower (config.baseUrl.getD "")) "openrouter"

/-- Modelled from the spec: `ModelScopeOpenAICompatibleProvider.isModelScopeProvider`
is not under src/; modelled as a vendor-substring check on the lowercased base
URL, false on the empty config as §8 requires. -/
def isModelScopeProvider (config : ContentGeneratorConfig) : Bool :=
  jsIncludes (jsToLower (config.baseUrl.getD "")) "modelscope"

/-- The predicate chain of `determineProvider` (index.ts, lines 60-109),
parameterised over the four cloud predicates whose definitions are not under
src/: first match wins, `Default` is the unconditional terminal fallback. -/
def determineProviderWith
    (p₃ p₄ p₅ p₆ : ContentGeneratorConfig → Bool)
    (config : ContentGeneratorConfig) : ProviderVariant :=
  if isOllamaProvider config then ProviderVariant.Ollama
  else if isVllmProvider config then ProviderVariant.Vllm
  else if p₃ config then ProviderVariant.DashScope
  else if p₄ config then ProviderVariant.DeepSeek
  else if p₅ config then ProviderVariant.OpenRouter
  else if p₆ config then ProviderVariant.ModelScope
  else ProviderVariant.Default

/-- `determineProvider` (index.ts, lines 60-109) with the spec-modelled cloud
predicates plugged in. -/
def determineProvider (config : ContentGeneratorConfig) : ProviderVariant :=
  determineProviderWith isDashScopeProvider isDeepSeekProvider
    isOpenRouterProvider isModelScopeProvider config

/-- `DEFAULT_OLLAMA_MODEL` (ollama.ts, line 15). -/
def DEFAULT_OLLAMA_MODEL : String := "qwen3-coder:14b"

/-- The `modelMap` object literal of `OllamaProvider.mapModelName`
(ollama.ts, lines 171-178), as an association list. -/
def ollamaModelMap : List (String × String) :=
  [("coder-model", DEFAULT_OLLAMA_MODEL),
   ("qwen3-coder", "qwen3-coder:14b"),
   ("qwen3-coder-7b", "qwen3-coder:7b"),
   ("qwen3-coder-14b", "qwen3-coder:14b"),
   ("qwen3-coder-32b", "qwen3-coder:32b"),
   ("qwen3-coder-plus", "qwen3-coder:32b")]

/-- `OllamaProvider.mapModelName` (ollama.ts, lines 164-181): a model already
in Ollama format (contains a colon) is used as-is; otherwise the lowercased
model is looked up in the alias map, falling back to `DEFAULT_OLLAMA_MODEL`. -/
def mapModelName (model : String) : String :=
  if jsIncludes model ":" then
    model
  else
    match ollamaModelMap.lookup (jsToLower model) with
    | some tag => tag
    | none => DEFAULT_OLLAMA_MODEL

/-- The slice of `OpenAI.Chat.ChatCompletionCreateParams` this layer touches:
`model` plus representative untouched fields, an `extraFields` bag for the
remaining properties copied by object spread, and the optional `keep_alive`
extension property (absent — `none` — on inputs, added by the Ollama
adapter). -/
structure ChatCompletionCreateParams where
  model : String
  messages : List String
  temperature : Option ℚ
  top_p : Option ℚ
  max_tokens : Option Nat
  stream : Option Bool
  extraFields : List (String × String)
  keep_alive : Option String
  deriving DecidableEq, Repr

/-- `OllamaProvider.buildRequest` (ollama.ts, lines 135-151): spread the
request, rewrite `model` through `mapModelName`, and add the keep-warm
directive `keep_alive: '5m'`. -/
def OllamaProvider.buildRequest
    (request : ChatCompletionCreateParams) : ChatCompletionCreateParams :=
  { request with
    model := mapModelName request.model,
    keep_alive := some "5m" }

/-- `VllmProvider.buildRequest` (part_000, lines 102-111): `{...request}`,
a field-by-field copy of the request. -/
def VllmProvider.buildRequest
    (request : ChatCompletionCreateParams) : ChatCompletionCreateParams :=
  { model := request.model,
    messages := request.messages,
    temperature := request.temperature,
    top_p := request.top_p,
    max_tokens := request.max_tokens,
    stream := request.stream,
    extraFields := request.extraFields,
    keep_alive := request.keep_alive }

/-- `ServerAvailability.serverType` values (part_000, line 133). -/
inductive ServerType
  | ollama
  | vllm
  | custom
  deriving DecidableEq, Repr

/-- `ServerAvailability` (part_000, lines 131-137). -/
structure ServerAvailability where
  isAvailable : Bool
  serverType : Option ServerType
  baseUrl : Option String
  models : Option (List String)
  error : Option String
  deriving DecidableEq, Repr

/-- Parsed JSON payload of a successful probe response: `models[].name`
(Ollama `/api/tags`), `data[].id` and `models` (OpenAI-style `/models`);
each field `none` when absent from the JSON. -/
structure FetchPayload where
  modelsNames : Option (List String)
  dataIds : Option (List String)
  modelsField : Option (List String)
  deriving DecidableEq, Repr

/-- Outcome of one `fetch` call: an ok response with parsed payload, a
non-ok response, or a thrown error (network failure or abort timeout)
carrying its message. -/
inductive FetchOutcome
  | ok (payload : FetchPayload)
  | notOk
  | failure (msg : String)
  deriving DecidableEq, Repr

/-- `baseUrl.replace(/\/v1\/?$/, '/api/tags')` (part_000, line 148): the
anchored regex rewrites a trailing `/v1` or `/v1/` into `/api/tags` and
leaves every other URL unchanged. -/
def ollamaTagsUrl (baseUrl : String) : String :=
  if jsEndsWith baseUrl "/v1/" then strDropRight baseUrl 4 ++ "/api/tags"
  else if jsEndsWith baseUrl "/v1" then strDropRight baseUrl 3 ++ "/api/tags"
  else baseUrl

/-- The OpenAI-compatible models URL (part_000, lines 172-174): append
`/models` when the URL already ends in `/v1`, else append `/v1/models`. -/
def modelsProbeUrl (baseUrl : String) : String :=
  if jsEndsWith baseUrl "/v1" then baseUrl ++ "/models"
  else baseUrl ++ "/v1/models"

/-- `checkLocalServerAvailability` (part_000, lines 142-206) over a fetch
oracle: try the Ollama `/api/tags` endpoint first (a non-ok response or a
thrown error both fall through), then the OpenAI-compatible `/models`
endpoint; a non-ok second response yields the fixed not-found error, a
thrown second error is returned as its message.  In the second success
branch JavaScript's `data.data?.map(...) || data.models || []` keeps an
empty `data` array (truthy in JavaScript) rather than falling through. -/
def checkLocalServerAvailability
    (fetch : String → Nat → FetchOutcome)
    (baseUrl : String) (timeout : Nat) : ServerAvailability :=
  match fetch (ollamaTagsUrl baseUrl) timeout with
  | FetchOutcome.ok payload =>
      { isAvailable := true,
        serverType := some ServerType.ollama,
        baseUrl := some baseUrl,
        models := some (payload.modelsNames.getD []),
        error := none }
  | _ =>
      match fetch (modelsProbeUrl baseUrl) timeout with
      | FetchOutcome.ok payload =>
          let models :=
            match payload.dataIds with
            | some ids => ids
            | none => payload.modelsField.getD []
          { isAvailable := true,
            serverType :=
              some (if jsIncludes baseUrl ":8000" then ServerType.vllm
                    else ServerType.custom),
            baseUrl := some baseUrl,
            models := some models,
            error := none }
      | FetchOutcome.notOk =>
          { isAvailable := false,
            serverType := none,
            baseUrl := none,
            models := none,
            error := some "No local model server found at the specified URL" }
      | FetchOutcome.failure msg =>
          { isAvailable := false,
            serverType := none,
            baseUrl := none,
            models := none,
            error := some msg }

/-- `commonEndpoints` (part_000, lines 212-217). -/
def commonEndpoints : List String :=
  ["http://localhost:11434/v1",
   "http://127.0.0.1:11434/v1",
   "http://localhost:8000/v1",
   "http://127.0.0.1:8000/v1"]

/-- The loop of `autoDetectLocalServer` (part_000, lines 219-229): probe
each endpoint with a 2000 ms timeout, return the first available result,
else the fixed negative result naming the common ports. -/
def autoDetectGo (fetch : String → Nat → FetchOutcome) :
    List String → ServerAvailability
  | [] =>
      { isAvailable := false,
        serverType := none,
        baseUrl := none,
        models := none,
        error := some "No local model server detected on common ports (11434, 8000)" }
  | e :: rest =>
      let result := checkLocalServerAvailability fetch e 2000
      if result.isAvailable then result else autoDetectGo fetch rest

/-- `autoDetectLocalServer` (part_000, lines 211-230). -/
def autoDetectLocalServer (fetch : String → Nat → FetchOutcome) :
    ServerAvailability :=
  autoDetectGo fetch commonEndpoints

/-! ### Helper lemmas -/

theorem isPrefixOf_map (f : Char → Char) :
    ∀ n m : List Char, n.isPrefixOf m = true →
      (n.map f).isPrefixOf (m.map f) = true := by
  intro n
  induction n with
  | nil => intro m _; simp [List.isPrefixOf]
  | cons a as ih =>
      intro m h
      cases m with
      | nil => simp [List.isPrefixOf] at h
      | cons b bs =>
          simp only [List.isPrefixOf, Bool.and_eq_true, beq_iff_eq] at h
          obtain ⟨rfl, h₂⟩ := h
          simp only [List.map_cons, List.isPrefixOf, Bool.and_eq_true, beq_iff_eq,
            true_and]
          exact ih bs h₂

theorem listContains_map (f : Char → Char) :
    ∀ h n : List Char, listContains h n = true →
      listContains (h.map f) (n.map f) = true := by
  intro h
  induction h with
  | nil =>
      intro n hc
      simp only [listContains, List.isEmpty_iff] at hc
      subst hc
      simp [listContains]
  | cons a as ih =>
      intro n hc
      simp only [listContains, Bool.or_eq_true] at hc
      rcases hc with hc | hc
      · have := isPrefixOf_map f n (a :: as) hc
        simp only [List.map_cons] at this ⊢
        simp [listContains, this]
      · simp only [List.map_cons, listContains, Bool.or_eq_true]
        exact Or.inr (ih n hc)

theorem jsIncludes_jsToLower (s t : String) (ht : jsToLower t = t)
    (h : jsIncludes s t = true) : jsIncludes (jsToLower s) t = true := by
  have hdata : t.data.map Char.toLower = t.data := congrArg String.data ht
  have := listContains_map Char.toLower s.data t.data h
  rw [hdata] at this
  exact this

theorem jsStartsWith_capital_not_lower (m : String)
    (h : jsStartsWith m "Qwen" = true) : jsStartsWith m "qwen" = false := by
  unfold jsStartsWith at h ⊢
  cases hd : m.data with
  | nil => rw [hd] at h; simp [List.isPrefixOf] at h
  | cons c cs =>
      rw [hd] at h
      have hc : c = 'Q' := by
        simp only [show ("Qwen" : String).data = ['Q', 'w', 'e', 'n'] from rfl,
          List.isPrefixOf, Bool.and_eq_true, beq_iff_eq] at h
        exact h.1.symm
      subst hc
      simp [show ("qwen" : String).data = ['q', 'w', 'e', 'n'] from rfl,
        List.isPrefixOf]

theorem isVllmProvider_of_literal (config : ContentGeneratorConfig)
    (h : jsIncludes (config.baseUrl.getD "") "localhost:8000" = true ∨
         jsIncludes (config.baseUrl.getD "") "127.0.0.1:8000" = true) :
    isVllmProvider config = true := by
  unfold isVllmProvider
  rcases h with h | h
  · have := jsIncludes_jsToLower (config.baseUrl.getD "") "localhost:8000"
      (by decide) h
    simp [this]
  · have := jsIncludes_jsToLower (config.baseUrl.getD "") "127.0.0.1:8000"
      (by decide) h
    simp [this]

theorem isOllamaProvider_of_literal (config : ContentGeneratorConfig)
    (h : jsIncludes (config.baseUrl.getD "") "localhost:11434" = true ∨
         jsIncludes (config.baseUrl.getD "") "127.0.0.1:11434" = true) :
    isOllamaProvider config = true := by
  unfold isOllamaProvider
  rcases h with h | h
  · have := jsIncludes_jsToLower (config.baseUrl.getD "") "localhost:11434"
      (by decide) h
    simp [this]
  · have := jsIncludes_jsToLower (config.baseUrl.getD "") "127.0.0.1:11434"
      (by decide) h
    simp [this]

theorem determineProviderWith_eq_ollama_iff
    (p₃ p₄ p₅ p₆ : ContentGeneratorConfig → Bool)
    (config : ContentGeneratorConfig) :
    determineProviderWith p₃ p₄ p₅ p₆ config = ProviderVariant.Ollama ↔
      isOllamaProvider config = true := by
  cases h₀ : isOllamaProvider config <;>
  cases h₁ : isVllmProvider config <;>
  cases h₂ : p₃ config <;>
  cases h₃ : p₄ config <;>
  cases h₄ : p₅ config <;>
  cases h₅ : p₆ config <;>
  simp [determineProviderWith, h₀, h₁, h₂, h₃, h₄, h₅]

/-! ### Claim theorems -/

/-- C1: The resolver evaluates the variant predicates in the fixed priority
order Ollama, vLLM, DashScope, DeepSeek, OpenRouter, ModelScope, Default and
the first matching predicate wins: whatever the four cloud predicates are,
a config satisfying the Ollama predicate resolves to the Ollama variant, and
a config whose baseUrl contains `localhost:8000` or `127.0.0.1:8000` but
which does not satisfy the Ollama predicate resolves to the vLLM variant. -/
theorem resolver_priority_first_match
    (p₃ p₄ p₅ p₆ : ContentGeneratorConfig → Bool)
    (c₁ c₂ : ContentGeneratorConfig)
    (h₁ : isOllamaProvider c₁ = true)
    (h₂ : isOllamaProvider c₂ = false)
    (h₃ : jsIncludes (c₂.baseUrl.getD "") "localhost:8000" = true ∨
          jsIncludes (c₂.baseUrl.getD "") "127.0.0.1:8000" = true) :
    determineProviderWith p₃ p₄ p₅ p₆ c₁ = ProviderVariant.Ollama ∧
    determineProviderWith p₃ p₄ p₅ p₆ c₂ = ProviderVariant.Vllm ∧
    determineProvider c₁ = ProviderVariant.Ollama ∧
    determineProvider c₂ = ProviderVariant.Vllm := by
  have hv : isVllmProvider c₂ = true := isVllmProvider_of_literal c₂ h₃
  refine ⟨?_, ?_, ?_, ?_⟩ <;>
    simp [determineProvider, determineProviderWith, h₁, h₂, hv]

/-- C1 witness: with all four cloud predicates constantly true (so every
later predicate also matches), the config for `http://localhost:11434` still
resolves to Ollama and the non-Ollama config for `http://localhost:8000/v1`
still resolves to vLLM. -/
theorem resolver_priority_first_match_witness :
    determineProviderWith (fun _ => true) (fun _ => true) (fun _ => true)
      (fun _ => true)
      { emptyConfig with baseUrl := some "http://localhost:11434/v1" } =
      ProviderVariant.Ollama ∧
    determineProviderWith (fun _ => true) (fun _ => true) (fun _ => true)
      (fun _ => true)
      { emptyConfig with baseUrl := some "http://localhost:8000/v1" } =
      ProviderVariant.Vllm ∧
    determineProvider
      { emptyConfig with baseUrl := some "http://localhost:11434/v1" } =
      ProviderVariant.Ollama ∧
    determineProvider
      { emptyConfig with baseUrl := some "http://localhost:8000/v1" } =
      ProviderVariant.Vllm :=
  resolver_priority_first_match (fun _ => true) (fun _ => true)
    (fun _ => true) (fun _ => true)
    { emptyConfig with baseUrl := some "http://localhost:11434/v1" }
    { emptyConfig with baseUrl := some "http://localhost:8000/v1" }
    (by decide) (by decide) (Or.inl (by decide))

/-- C3: Resolution is total and deterministic — `determineProvider` is a
pure function, so it returns exactly one variant for every config and equal
configs resolve to equal variants — and the empty config (no baseUrl, no
model) resolves to the Default variant. -/
theorem resolver_total_default :
    determineProvider emptyConfig = ProviderVariant.Default ∧
    (∀ config : ContentGeneratorConfig,
      ∃ v : ProviderVariant, determineProvider config = v ∧
        ∀ w : ProviderVariant, determineProvider config = w → w = v) := by
  refine ⟨by decide, fun config => ⟨determineProvider config, rfl, ?_⟩⟩
  intro w hw
  exact hw.symm

/-- C7: The vLLM adapter's `buildRequest` is the identity transform: the
returned request equals the input request in every field. -/
theorem vllm_buildRequest_identity (request : ChatCompletionCreateParams) :
    VllmProvider.buildRequest request = request := by
  cases request
  rfl

/-- C9: The Ollama adapter's `buildRequest` leaves every field other than
`model` unchanged (messages, temperature, top_p, max_tokens, stream, and the
bag of remaining spread-copied fields are preserved) and adds exactly the
one new field `keep_alive`. -/
theorem ollama_buildRequest_frame (request : ChatCompletionCreateParams) :
    (OllamaProvider.buildRequest request).messages = request.messages ∧
    (OllamaProvider.buildRequest request).temperature = request.temperature ∧
    (OllamaProvider.buildRequest request).top_p = request.top_p ∧
    (OllamaProvider.buildRequest request).max_tokens = request.max_tokens ∧
    (OllamaProvider.buildRequest request).stream = request.stream ∧
    (OllamaProvider.buildRequest request).extraFields = request.extraFields ∧
    (OllamaProvider.buildRequest request).keep_alive = some "5m" := by
  refine ⟨rfl, rfl, rfl, rfl, rfl, rfl, rfl⟩

/-- C4: The Ollama detection predicate holds exactly when the config's
baseUrl (matched case-insensitively, as the code lowercases it before the
substring tests) contains `localhost:11434` or `127.0.0.1:11434`, or the
config's model contains a colon and starts with `qwen`; in particular every
config whose baseUrl literally contains one of those two host:port
substrings resolves to the Ollama variant. -/
theorem ollama_predicate_characterization (config : ContentGeneratorConfig) :
    (isOllamaProvider config = true ↔
      (jsIncludes (jsToLower (config.baseUrl.getD "")) "localhost:11434" = true ∨
       jsIncludes (jsToLower (config.baseUrl.getD "")) "127.0.0.1:11434" = true ∨
       (jsIncludes (config.model.getD "") ":" = true ∧
        jsStartsWith (config.model.getD "") "qwen" = true))) ∧
    (jsIncludes (config.baseUrl.getD "") "localhost:11434" = true →
      determineProvider config = ProviderVariant.Ollama) ∧
    (jsIncludes (config.baseUrl.getD "") "127.0.0.1:11434" = true →
      determineProvider config = ProviderVariant.Ollama) := by
  refine ⟨?_, ?_, ?_⟩
  · cases h₁ : jsIncludes (jsToLower (config.baseUrl.getD "")) "localhost:11434" <;>
    cases h₂ : jsIncludes (jsToLower (config.baseUrl.getD "")) "127.0.0.1:11434" <;>
    cases h₃ : jsIncludes (config.model.getD "") ":" <;>
    cases h₄ : jsStartsWith (config.model.getD "") "qwen" <;>
    simp [isOllamaProvider, h₁, h₂, h₃, h₄]
  · intro h
    have ho := isOllamaProvider_of_literal config (Or.inl h)
    simp [determineProvider, determineProviderWith, ho]
  · intro h
    have ho := isOllamaProvider_of_literal config (Or.inr h)
    simp [determineProvider, determineProviderWith, ho]

/-- C4 witness: the literal-containment conjuncts applied to the configs for
`http://localhost:11434/v1` and `http://127.0.0.1:11434`. -/
theorem ollama_predicate_characterization_witness :
    determineProvider
      { emptyConfig with baseUrl := some "http://localhost:11434/v1" } =
      ProviderVariant.Ollama ∧
    determineProvider
      { emptyConfig with baseUrl := some "http://127.0.0.1:11434" } =
      ProviderVariant.Ollama :=
  ⟨(ollama_predicate_characterization
      { emptyConfig with baseUrl := some "http://localhost:11434/v1" }).2.1
      (by decide),
   (ollama_predicate_characterization
      { emptyConfig with baseUrl := some "http://127.0.0.1:11434" }).2.2
      (by decide)⟩

/-- C10: The Ollama predicate's baseUrl checks are case-insensitive (the
baseUrl `http://LOCALHOST:11434/v1` matches), while the model heuristic is
case-sensitive: a config whose (lowercased) baseUrl lacks the two 11434
host:port substrings and whose model contains a colon but starts with
`Qwen` (capital Q) fails the predicate and does not resolve to the Ollama
variant. -/
theorem ollama_predicate_case_sensitivity (config : ContentGeneratorConfig)
    (hb₁ : jsIncludes (jsToLower (config.baseUrl.getD "")) "localhost:11434" = false)
    (hb₂ : jsIncludes (jsToLower (config.baseUrl.getD "")) "127.0.0.1:11434" = false)
    (hm : jsIncludes (config.model.getD "") ":" = true)
    (hq : jsStartsWith (config.model.getD "") "Qwen" = true) :
    isOllamaProvider
      { emptyConfig with baseUrl := some "http://LOCALHOST:11434/v1" } = true ∧
    isOllamaProvider config = false ∧
    determineProvider config ≠ ProviderVariant.Ollama := by
  have hql : jsStartsWith (config.model.getD "") "qwen" = false :=
    jsStartsWith_capital_not_lower _ hq
  have hfalse : isOllamaProvider config = false := by
    simp [isOllamaProvider, hb₁, hb₂, hm, hql]
  refine ⟨by decide, hfalse, ?_⟩
  show determineProviderWith isDashScopeProvider isDeepSeekProvider
    isOpenRouterProvider isModelScopeProvider config ≠ ProviderVariant.Ollama
  intro hcontra
  rw [determineProviderWith_eq_ollama_iff] at hcontra
  rw [hfalse] at hcontra
  exact Bool.false_ne_true hcontra

/-- C10 witness: the model `Qwen3-coder:14b` (capital Q, colon, no Ollama
baseUrl) is not classified as Ollama, while `http://LOCALHOST:11434/v1`
is. -/
theorem ollama_predicate_case_sensitivity_witness :
    isOllamaProvider
      { emptyConfig with baseUrl := some "http://LOCALHOST:11434/v1" } = true ∧
    isOllamaProvider { emptyConfig with model := some "Qwen3-coder:14b" } = false ∧
    determineProvider { emptyConfig with model := some "Qwen3-coder:14b" } ≠
      ProviderVariant.Ollama :=
  ollama_predicate_case_sensitivity
    { emptyConfig with model := some "Qwen3-coder:14b" }
    (by decide) (by decide) (by decide) (by decide)

/-- C2: The Ollama adapter's `buildRequest` rewrites `model` so that a model
whose lowercasing hits the alias map maps to its tag (`qwen3-coder` to
`qwen3-coder:14b`), a model already containing a colon passes through
unchanged, a model with no colon and no alias hit falls back to the default
tag `qwen3-coder:14b`, and in every case `keep_alive = '5m'` is added. -/
theorem ollama_buildRequest_model_mapping
    (request : ChatCompletionCreateParams) :
    (OllamaProvider.buildRequest request).keep_alive = some "5m" ∧
    (request.model = "qwen3-coder" →
      (OllamaProvider.buildRequest request).model = "qwen3-coder:14b") ∧
    (jsIncludes request.model ":" = true →
      (OllamaProvider.buildRequest request).model = request.model) ∧
    (jsIncludes request.model ":" = false →
      (∀ tag, ollamaModelMap.lookup (jsToLower request.model) = some tag →
        (OllamaProvider.buildRequest request).model = tag) ∧
      (ollamaModelMap.lookup (jsToLower request.model) = none →
        (OllamaProvider.buildRequest request).model = DEFAULT_OLLAMA_MODEL)) := by
  refine ⟨rfl, ?_, ?_, ?_⟩
  · intro h
    show mapModelName request.model = "qwen3-coder:14b"
    rw [h]
    decide
  · intro h
    show mapModelName request.model = request.model
    simp [mapModelName, h]
  · intro h
    constructor
    · intro tag htag
      show mapModelName request.model = tag
      simp [mapModelName, h, htag]
    · intro hnone
      show mapModelName request.model = DEFAULT_OLLAMA_MODEL
      simp [mapModelName, h, hnone]

/-- C2 witness: alias hit `qwen3-coder`, colon pass-through `custom:latest`,
and fallback `mystery-model`, each with the keep-warm directive added. -/
theorem ollama_buildRequest_model_mapping_witness :
    (OllamaProvider.buildRequest
      { model := "qwen3-coder", messages := ["hi"], temperature := none,
        top_p := none, max_tokens := none, stream := none, extraFields := [],
        keep_alive := none }).model = "qwen3-coder:14b" ∧
    (OllamaProvider.buildRequest
      { model := "custom:latest", messages := [], temperature := none,
        top_p := none, max_tokens := none, stream := none, extraFields := [],
        keep_alive := none }).model = "custom:latest" ∧
    (OllamaProvider.buildRequest
      { model := "mystery-model", messages := [], temperature := none,
        top_p := none, max_tokens := none, stream := none, extraFields := [],
        keep_alive := none }).model = DEFAULT_OLLAMA_MODEL ∧
    (OllamaProvider.buildRequest
      { model := "qwen3-coder", messages := ["hi"], temperature := none,
        top_p := none, max_tokens := none, stream := none, extraFields := [],
        keep_alive := none }).keep_alive = some "5m" :=
  ⟨(ollama_buildRequest_model_mapping _).2.1 rfl,
   (ollama_buildRequest_model_mapping _).2.2.1 (by decide),
   ((ollama_buildRequest_model_mapping _).2.2.2 (by decide)).2 (by decide),
   (ollama_buildRequest_model_mapping _).1⟩

/-- C5: `checkLocalServerAvailability` never throws: whenever the thrown
errors the runtime reports carry non-empty messages and neither the Ollama
tags endpoint nor the OpenAI-compatible models endpoint responds ok within
the timeout, the probe returns `isAvailable = false` together with a
non-empty error string instead of raising. -/
theorem checkLocalServerAvailability_probe_negative
    (fetch : String → Nat → FetchOutcome) (baseUrl : String) (timeout : Nat)
    (hmsg : ∀ url t msg, fetch url t = FetchOutcome.failure msg → msg ≠ "")
    (h₁ : ∀ p, fetch (ollamaTagsUrl baseUrl) timeout ≠ FetchOutcome.ok p)
    (h₂ : ∀ p, fetch (modelsProbeUrl baseUrl) timeout ≠ FetchOutcome.ok p) :
    (checkLocalServerAvailability fetch baseUrl timeout).isAvailable = false ∧
    ∃ e, (checkLocalServerAvailability fetch baseUrl timeout).error = some e ∧
      e ≠ "" := by
  unfold checkLocalServerAvailability
  cases hf₁ : fetch (ollamaTagsUrl baseUrl) timeout with
  | ok p => exact absurd hf₁ (h₁ p)
  | notOk =>
      cases hf₂ : fetch (modelsProbeUrl baseUrl) timeout with
      | ok p => exact absurd hf₂ (h₂ p)
      | notOk =>
          exact ⟨rfl, ⟨"No local model server found at the specified URL",
            rfl, by decide⟩⟩
      | failure msg => exact ⟨rfl, ⟨msg, rfl, hmsg _ _ _ hf₂⟩⟩
  | failure m =>
      cases hf₂ : fetch (modelsProbeUrl baseUrl) timeout with
      | ok p => exact absurd hf₂ (h₂ p)
      | notOk =>
          exact ⟨rfl, ⟨"No local model server found at the specified URL",
            rfl, by decide⟩⟩
      | failure msg => exact ⟨rfl, ⟨msg, rfl, hmsg _ _ _ hf₂⟩⟩

/-- C5 witness: an oracle whose every response is non-ok, probed at
`http://localhost:9999/v1` with a 2000 ms timeout. -/
theorem checkLocalServerAvailability_probe_negative_witness :
    (checkLocalServerAvailability (fun _ _ => FetchOutcome.notOk)
      "http://localhost:9999/v1" 2000).isAvailable = false ∧
    ∃ e, (checkLocalServerAvailability (fun _ _ => FetchOutcome.notOk)
      "http://localhost:9999/v1" 2000).error = some e ∧ e ≠ "" :=
  checkLocalServerAvailability_probe_negative
    (fun _ _ => FetchOutcome.notOk) "http://localhost:9999/v1" 2000
    (fun _ _ _ h => FetchOutcome.noConfusion h)
    (fun _ h => FetchOutcome.noConfusion h)
    (fun _ h => FetchOutcome.noConfusion h)

/-- C8: `checkLocalServerAvailability` classifies `serverType` purely from
which endpoint succeeded and the port substring: an ok Ollama tags response
yields `ollama` regardless of the URL's port; when only the models endpoint
responds ok, the type is `vllm` when the baseUrl contains `:8000` and
`custom` otherwise. -/
theorem checkLocalServerAvailability_serverType_classification
    (fetch : String → Nat → FetchOutcome) (baseUrl : String) (timeout : Nat) :
    (∀ p, fetch (ollamaTagsUrl baseUrl) timeout = FetchOutcome.ok p →
      (checkLocalServerAvailability fetch baseUrl timeout).serverType =
        some ServerType.ollama) ∧
    (∀ p, (fetch (ollamaTagsUrl baseUrl) timeout = FetchOutcome.notOk ∨
           ∃ m, fetch (ollamaTagsUrl baseUrl) timeout = FetchOutcome.failure m) →
      fetch (modelsProbeUrl baseUrl) timeout = FetchOutcome.ok p →
      jsIncludes baseUrl ":8000" = true →
      (checkLocalServerAvailability fetch baseUrl timeout).serverType =
        some ServerType.vllm) ∧
    (∀ p, (fetch (ollamaTagsUrl baseUrl) timeout = FetchOutcome.notOk ∨
           ∃ m, fetch (ollamaTagsUrl baseUrl) timeout = FetchOutcome.failure m) →
      fetch (modelsProbeUrl baseUrl) timeout = FetchOutcome.ok p →
      jsIncludes baseUrl ":8000" = false →
      (checkLocalServerAvailability fetch baseUrl timeout).serverType =
        some ServerType.custom) := by
  refine ⟨?_, ?_, ?_⟩
  · intro p hp
    unfold checkLocalServerAvailability
    rw [hp]
  · intro p hno hp h8
    unfold checkLocalServerAvailability
    rcases hno with h | ⟨m, h⟩ <;> rw [h, hp] <;> simp [h8]
  · intro p hno hp h8
    unfold checkLocalServerAvailability
    rcases hno with h | ⟨m, h⟩ <;> rw [h, hp] <;> simp [h8]

/-- C8 witness: an oracle with an ok tags endpoint on a `:8000` URL is still
classified `ollama`; oracles where only the models endpoint is ok are
classified `vllm` on a `:8000` URL and `custom` on a `:5000` URL. -/
theorem checkLocalServerAvailability_serverType_classification_witness :
    (checkLocalServerAvailability
      (fun _ _ => FetchOutcome.ok
        { modelsNames := some ["qwen3-coder:14b"], dataIds := none,
          modelsField := none })
      "http://localhost:8000/v1" 2000).serverType = some ServerType.ollama ∧
    (checkLocalServerAvailability
      (fun url _ =>
        if url = "http://localhost:8000/v1/models" then
          FetchOutcome.ok
            { modelsNames := none, dataIds := some ["m"], modelsField := none }
        else FetchOutcome.notOk)
      "http://localhost:8000/v1" 2000).serverType = some ServerType.vllm ∧
    (checkLocalServerAvailability
      (fun url _ =>
        if url = "http://localhost:5000/v1/models" then
          FetchOutcome.ok
            { modelsNames := none, dataIds := some ["m"], modelsField := none }
        else FetchOutcome.notOk)
      "http://localhost:5000/v1" 2000).serverType = some ServerType.custom :=
  ⟨(checkLocalServerAvailability_serverType_classification _
      "http://localhost:8000/v1" 2000).1
      { modelsNames := some ["qwen3-coder:14b"], dataIds := none,
        modelsField := none } rfl,
   (checkLocalServerAvailability_serverType_classification _
      "http://localhost:8000/v1" 2000).2.1
      { modelsNames := none, dataIds := some ["m"], modelsField := none }
      (Or.inl (by decide)) (by decide) (by decide),
   (checkLocalServerAvailability_serverType_classification _
      "http://localhost:5000/v1" 2000).2.2
      { modelsNames := none, dataIds := some ["m"], modelsField := none }
      (Or.inl (by decide)) (by decide) (by decide)⟩

/-- C6: `autoDetectLocalServer` probes exactly the four well-known loopback
endpoints — both Ollama forms on port 11434 before both vLLM forms on port
8000 — sequentially with a 2000 ms per-attempt timeout, returns the first
available result, and when none is available returns `isAvailable = false`
with an error message containing both `11434` and `8000`. -/
theorem autoDetect_sequential_probe (fetch : String → Nat → FetchOutcome) :
    commonEndpoints =
      ["http://localhost:11434/v1", "http://127.0.0.1:11434/v1",
       "http://localhost:8000/v1", "http://127.0.0.1:8000/v1"] ∧
    ((checkLocalServerAvailability fetch "http://localhost:11434/v1" 2000).isAvailable = true →
      autoDetectLocalServer fetch =
        checkLocalServerAvailability fetch "http://localhost:11434/v1" 2000) ∧
    ((checkLocalServerAvailability fetch "http://localhost:11434/v1" 2000).isAvailable = false →
     (checkLocalServerAvailability fetch "http://127.0.0.1:11434/v1" 2000).isAvailable = true →
      autoDetectLocalServer fetch =
        checkLocalServerAvailability fetch "http://127.0.0.1:11434/v1" 2000) ∧
    ((checkLocalServerAvailability fetch "http://localhost:11434/v1" 2000).isAvailable = false →
     (checkLocalServerAvailability fetch "http://127.0.0.1:11434/v1" 2000).isAvailable = false →
     (checkLocalServerAvailability fetch "http://localhost:8000/v1" 2000).isAvailable = true →
      autoDetectLocalServer fetch =
        checkLocalServerAvailability fetch "http://localhost:8000/v1" 2000) ∧
    ((checkLocalServerAvailability fetch "http://localhost:11434/v1" 2000).isAvailable = false →
     (checkLocalServerAvailability fetch "http://127.0.0.1:11434/v1" 2000).isAvailable = false →
     (checkLocalServerAvailability fetch "http://localhost:8000/v1" 2000).isAvailable = false →
     (checkLocalServerAvailability fetch "http://127.0.0.1:8000/v1" 2000).isAvailable = true →
      autoDetectLocalServer fetch =
        checkLocalServerAvailability fetch "http://127.0.0.1:8000/v1" 2000) ∧
    ((checkLocalServerAvailability fetch "http://localhost:11434/v1" 2000).isAvailable = false →
     (checkLocalServerAvailability fetch "http://127.0.0.1:11434/v1" 2000).isAvailable = false →
     (checkLocalServerAvailability fetch "http://localhost:8000/v1" 2000).isAvailable = false →
     (checkLocalServerAvailability fetch "http://127.0.0.1:8000/v1" 2000).isAvailable = false →
      (autoDetectLocalServer fetch).isAvailable = false ∧
      ∃ e, (autoDetectLocalServer fetch).error = some e ∧
        jsIncludes e "11434" = true ∧ jsIncludes e "8000" = true) := by
  refine ⟨rfl, ?_, ?_, ?_, ?_, ?_⟩
  · intro h₁
    simp [autoDetectLocalServer, commonEndpoints, autoDetectGo, h₁]
  · intro h₁ h₂
    simp [autoDetectLocalServer, commonEndpoints, autoDetectGo, h₁, h₂]
  · intro h₁ h₂ h₃
    simp [autoDetectLocalServer, commonEndpoints, autoDetectGo, h₁, h₂, h₃]
  · intro h₁ h₂ h₃ h₄
    simp [autoDetectLocalServer, commonEndpoints, autoDetectGo, h₁, h₂, h₃, h₄]
  · intro h₁ h₂ h₃ h₄
    have hres : autoDetectLocalServer fetch =
        { isAvailable := false, serverType := none, baseUrl := none,
          models := none,
          error := some "No local model server detected on common ports (11434, 8000)" } := by
      simp [autoDetectLocalServer, commonEndpoints, autoDetectGo, h₁, h₂, h₃, h₄]
    rw [hres]
    exact ⟨rfl, ⟨"No local model server detected on common ports (11434, 8000)",
      rfl, by decide, by decide⟩⟩

/-- C6 witness: with an always-ok oracle auto-detection returns the first
probe's result; with an always-non-ok oracle it reports unavailability with
a message naming both ports. -/
theorem autoDetect_sequential_probe_witness :
    autoDetectLocalServer
      (fun _ _ => FetchOutcome.ok
        { modelsNames := some ["qwen3-coder:14b"], dataIds := none,
          modelsField := none }) =
      checkLocalServerAvailability
        (fun _ _ => FetchOutcome.ok
          { modelsNames := some ["qwen3-coder:14b"], dataIds := none,
            modelsField := none })
        "http://localhost:11434/v1" 2000 ∧
    ((autoDetectLocalServer (fun _ _ => FetchOutcome.notOk)).isAvailable = false ∧
     ∃ e, (autoDetectLocalServer (fun _ _ => FetchOutcome.notOk)).error = some e ∧
       jsIncludes e "11434" = true ∧ jsIncludes e "8000" = true) :=
  ⟨(autoDetect_sequential_probe
      (fun _ _ => FetchOutcome.ok
        { modelsNames := some ["qwen3-coder:14b"], dataIds := none,
          modelsField := none })).2.1 (by decide),
   (autoDetect_sequential_probe (fun _ _ => FetchOutcome.notOk)).2.2.2.2.2
     (by decide) (by decide) (by decide) (by decide)⟩

end QwenCode
